import Mathlib

/-!
Verification of the `gps` SQL lexer (src/lex.go).

The Go program is a channel-based state-machine scanner.  We embed it
shallowly: the `Lexer` record carries the cursor (`name`, `input`,
`start`, `pos`); each state function returns the list of tokens it sends
on the channel during one invocation, the updated cursor, and the next
state (`none` models returning `nil`, after which the driver closes the
channel).  The driver loop `transform` is modelled by `runState` with an
explicit fuel bound on the number of state invocations, since the string
and backtick literal states need not terminate.  Byte offsets are
modelled as code-point offsets into `input : List Char`; every advance in
the source moves by exactly one decoded code point, so the two coordinate
systems agree at every observation point.
-/

namespace Gps

/-- Token kinds, src/lex.go lines 12-55.  `Error` is listed first: with
Go's `iota` it has value 0, making `Token{Error, ""}` the zero value of
`Token`. -/
inductive TokenType where
  | Error
  | EOF
  | Star
  | Sep
  | Dot
  | Op
  | Paren
  | Literal
  | Number
  | String
  | DblString
  | Select
  | Distinct
  | From
  | Where
  | Group
  | Order
  | By
  | Having
  | Limit
  | Join
  | Left
  | Right
  | Inner
  | Outer
  | On
  | As
  | Union
  | All
  | And
  | Or
  | Between
  | True
  | False
  | Null
  | Is
  | Not
  | Like
  | Exists
deriving DecidableEq, Repr

/-- src/lex.go lines 57-60. -/
structure Token where
  type : TokenType
  literal : String
deriving DecidableEq, Repr

/-- The cursor part of the Lexer struct, src/lex.go lines 72-78.  The
`tokens` channel is modelled by the event lists the state functions
return, not by a field. -/
structure Lexer where
  name : String
  input : List Char
  start : Nat
  pos : Nat
deriving DecidableEq, Repr

/-- `utf8.RuneError`: what `utf8.DecodeRuneInString` yields (with width 0)
on empty input, hence what `next`/`peek` return at end of input. -/
def replacementChar : Char := Char.ofNat 0xFFFD

/-- The single-quote code point `'`. -/
def squote : Char := Char.ofNat 39

/-- The backtick code point. -/
def backquote : Char := Char.ofNat 96

/-- `NewLexer`, src/lex.go lines 80-88 (the spawned goroutine is modelled
by running `runState` on the result). -/
def NewLexer (name input : String) : Lexer :=
  { name := name, input := input.toList, start := 0, pos := 0 }

/-- `l.cache()`, src/lex.go lines 125-127: `l.input[l.start:l.pos]`. -/
def Lexer.cache (l : Lexer) : String :=
  String.mk ((l.input.drop l.start).take (l.pos - l.start))

/-- `l.emit(t)`, src/lex.go lines 120-123: the sent token paired with the
updated cursor. -/
def Lexer.emit (l : Lexer) (t : TokenType) : Token × Lexer :=
  ({ type := t, literal := l.cache }, { l with start := l.pos })

/-- `l.ignore()`, src/lex.go lines 130-132. -/
def Lexer.ignore (l : Lexer) : Lexer :=
  { l with start := l.pos }

/-- `l.next()`, src/lex.go lines 135-140: decode one code point at `pos`
and advance by its width; on empty remainder `DecodeRuneInString` returns
`(RuneError, 0)`, so the cursor does not move. -/
def Lexer.next (l : Lexer) : Char × Lexer :=
  if l.pos < l.input.length then
    (l.input.getD l.pos replacementChar, { l with pos := l.pos + 1 })
  else
    (replacementChar, l)

/-- `l.backup()`, src/lex.go lines 143-146: a full rewind of the pending
span, `pos = start`. -/
def Lexer.backup (l : Lexer) : Lexer :=
  { l with pos := l.start }

/-- `l.peek()`, src/lex.go lines 149-153. -/
def Lexer.peek (l : Lexer) : Char :=
  l.input.getD l.pos replacementChar

/-- `l.accept(valid)`, src/lex.go lines 156-161 (declared but unused by
the states, kept for completeness). -/
def Lexer.accept (l : Lexer) (valid : String) : Bool :=
  valid.toList.contains l.peek

/-- Go `fmt.Sprintf` restricted to what `errorf` needs: a format applied
to one string argument.  Each `%s` is replaced by the argument if it is
still unconsumed and renders as `%!s(MISSING)` afterwards; an argument the
format never consumes is appended as `%!(EXTRA string=...)`.  This is
exactly Go's behaviour for formats whose only verbs are `%s`. -/
def fmtOne : List Char → String → Bool → List Char
  | [], arg, used =>
    if used then [] else ("%!(EXTRA string=" ++ arg ++ ")").toList
  | '%' :: 's' :: rest, arg, used =>
    if used then ("%!s(MISSING)").toList ++ fmtOne rest arg used
    else arg.toList ++ fmtOne rest arg Bool.true
  | c :: rest, arg, used => c :: fmtOne rest arg used

/-- `l.errorf(format, args)`, src/lex.go lines 164-167: the token sent on
the channel.  `fmt.Sprintf("ERROR: %s: %s", l.name, format)` inserts the
two arguments verbatim, giving the prefixed format; the second `Sprintf`
then applies it to the single argument. -/
def Lexer.errorf (l : Lexer) (format : String) (arg : String) : Token :=
  { type := TokenType.Error,
    literal := String.mk (fmtOne ("ERROR: " ++ l.name ++ ": " ++ format).toList arg Bool.false) }

/-- The five state functions of src/lex.go, as names.  `State` in the
source is a recursive function type; the driver only ever observes which
of the five functions it holds, so an enumeration is a faithful model. -/
inductive State where
  | expectAny
  | expectKeyword
  | expectString
  | expectLiteral
  | expectNumber
deriving DecidableEq, Repr

/-- The letter test of src/lex.go lines 225 and 234:
`'a' <= r && r <= 'z' || 'A' <= r && r <= 'Z'`. -/
def isGoLetter (r : Char) : Bool :=
  ('a' ≤ r && r ≤ 'z') || ('A' ≤ r && r ≤ 'Z')

/-- The digit test of src/lex.go lines 222, 302 and 308:
`'0' <= r && r <= '9'`. -/
def isGoDigit (r : Char) : Bool :=
  '0' ≤ r && r ≤ '9'

/-- `l.emit(t); return expectAny` — the common tail of most branches. -/
def emit1 (l : Lexer) (t : TokenType) : List Token × Lexer × Option State :=
  ([(l.emit t).1], (l.emit t).2, some State.expectAny)

/-- `expectAny`, src/lex.go lines 181-231, by structural recursion on the
text after the cursor, which `expectAny` passes as `l.input.drop l.pos`:
the guard `l.pos >= len(l.input)` is the `[]` case; in the cons case
`l.next()` returns the head and advances `pos` by one code point; and the
`,` branch's immediate tail call `return expectAny(l)` (line 200)
recurses on the tail, which is the text after the code point it just
consumed. -/
def expectAnyGo : List Char → Lexer → List Token × Lexer × Option State
  | [], l => ([(l.emit TokenType.EOF).1], (l.emit TokenType.EOF).2, none)
  | r :: rest, l =>
    let l1 : Lexer := { l with pos := l.pos + 1 }
    if r = squote then ([], l1, some State.expectString)
    else if r = backquote then ([], l1, some State.expectLiteral)
    else if r = ' ' ∨ r = '\n' then ([], l1.ignore, some State.expectAny)
    else if r = '*' then emit1 l1 TokenType.Star
    else if r = ',' then
      let e := l1.emit TokenType.Sep
      let cont := expectAnyGo rest e.2
      (e.1 :: cont.1, cont.2)
    else if r = '=' ∨ r = '+' ∨ r = '-' ∨ r = '/' then emit1 l1 TokenType.Op
    else if r = '!' then
      ((if l1.peek ≠ '=' then [l1.errorf "unsupported op: " l1.cache] else []) ++
        [(l1.emit TokenType.Op).1], (l1.emit TokenType.Op).2, some State.expectAny)
    else if r = '>' then
      ((if l1.peek ≠ '=' ∧ l1.peek ≠ ' ' then [l1.errorf "unsupported op: " l1.cache] else []) ++
        [(l1.emit TokenType.Op).1], (l1.emit TokenType.Op).2, some State.expectAny)
    else if r = '<' then
      ((if l1.peek ≠ '=' ∧ l1.peek ≠ ' ' ∧ l1.peek ≠ '>' then
          [l1.errorf "unsupported op: " l1.cache] else []) ++
        [(l1.emit TokenType.Op).1], (l1.emit TokenType.Op).2, some State.expectAny)
    else if isGoDigit r then ([], l1.backup, some State.expectNumber)
    else if isGoLetter r then ([], l1.backup, some State.expectKeyword)
    else ([], l1, none)

/-- The initial dispatch state in terms of the cursor alone. -/
def expectAny (l : Lexer) : List Token × Lexer × Option State :=
  expectAnyGo (l.input.drop l.pos) l

/-- The letter loop of src/lex.go lines 234-236, by structural recursion
on the text after the cursor: while `peek` (the head of the remaining
text, `RuneError` when empty — never a letter) is an ASCII letter,
`next()` consumes it. -/
def consumeLettersGo : List Char → Lexer → Lexer
  | c :: rest, l =>
    if isGoLetter c then consumeLettersGo rest { l with pos := l.pos + 1 } else l
  | [], l => l

/-- The letter loop entered at the current cursor. -/
def consumeLetters (l : Lexer) : Lexer :=
  consumeLettersGo (l.input.drop l.pos) l

/-- `strings.ToUpper`, restricted to its effect here: `expectKeyword`
uppercases a captured span consisting solely of ASCII letters, on which
Go's Unicode uppercasing is exactly per-character ASCII uppercasing. -/
def goToUpper (s : String) : String :=
  String.mk (s.data.map Char.toUpper)

/-- `expectKeyword`, src/lex.go lines 233-280: consume a maximal letter
run, then switch on the uppercased captured text; the default case sends
a diagnostic (note the source's spelling `exsit`) and returns `nil`. -/
def expectKeyword (l : Lexer) : List Token × Lexer × Option State :=
  let l1 := consumeLetters l
  let up := goToUpper l1.cache
  if up = "SELECT" then emit1 l1 TokenType.Select
  else if up = "DISTINCT" then emit1 l1 TokenType.Distinct
  else if up = "FROM" then emit1 l1 TokenType.From
  else if up = "WHERE" then emit1 l1 TokenType.Where
  else if up = "GROUP" then emit1 l1 TokenType.Group
  else if up = "ORDER" then emit1 l1 TokenType.Order
  else if up = "BY" then emit1 l1 TokenType.By
  else if up = "HAVING" then emit1 l1 TokenType.Having
  else if up = "LIMIT" then emit1 l1 TokenType.Limit
  else if up = "JOIN" then emit1 l1 TokenType.Join
  else if up = "LEFT" then emit1 l1 TokenType.Left
  else if up = "RIGHT" then emit1 l1 TokenType.Right
  else if up = "INNER" then emit1 l1 TokenType.Inner
  else if up = "OUTER" then emit1 l1 TokenType.Outer
  else if up = "ON" then emit1 l1 TokenType.On
  else if up = "AS" then emit1 l1 TokenType.As
  else if up = "UNION" then emit1 l1 TokenType.Union
  else if up = "ALL" then emit1 l1 TokenType.All
  else ([l1.errorf "keyword doesn\x27t exsit: %s" l1.cache], l1, none)

/-- `expectString`, src/lex.go lines 282-289: consume one code point; on
the closing quote emit `String` and return to dispatch, otherwise stay. -/
def expectString (l : Lexer) : List Token × Lexer × Option State :=
  if (l.next).1 = squote then emit1 (l.next).2 TokenType.String
  else ([], (l.next).2, some State.expectString)

/-- `expectLiteral`, src/lex.go lines 291-299.  Line 293 sends
`Token{t, l.cache()}` where `t` is not a name in scope (the Go file does
not compile as written); per the spec's design note the confirmed intent
is a Literal-kind token through the standard emission primitive, and
lines 293-294 are then exactly the body of `emit(Literal)`. -/
def expectLiteral (l : Lexer) : List Token × Lexer × Option State :=
  if (l.next).1 = backquote then emit1 (l.next).2 TokenType.Literal
  else ([], (l.next).2, some State.expectLiteral)

/-- The digit loop of src/lex.go lines 301-303 and 308-310, in the same
style as the letter loop. -/
def consumeDigitsGo : List Char → Lexer → Lexer
  | c :: rest, l =>
    if isGoDigit c then consumeDigitsGo rest { l with pos := l.pos + 1 } else l
  | [], l => l

/-- The digit loop entered at the current cursor. -/
def consumeDigits (l : Lexer) : Lexer :=
  consumeDigitsGo (l.input.drop l.pos) l

/-- `expectNumber`, src/lex.go lines 301-313. -/
def expectNumber (l : Lexer) : List Token × Lexer × Option State :=
  let l1 := consumeDigits l
  let l2 := if l1.peek = '.' then (l1.next).2 else l1
  let l3 := consumeDigits l2
  emit1 l3 TokenType.Number

/-- One invocation of the state the driver currently holds. -/
def stepState : State → Lexer → List Token × Lexer × Option State
  | State.expectAny, l => expectAny l
  | State.expectKeyword, l => expectKeyword l
  | State.expectString, l => expectString l
  | State.expectLiteral, l => expectLiteral l
  | State.expectNumber, l => expectNumber l

/-- The driver loop `transform`, src/lex.go lines 173-178, with explicit
fuel bounding the number of state invocations (the loop itself is
unbounded and need not terminate — see the unterminated-literal states).
Result `none` means a state returned `nil` and the channel was closed;
`some (s, l)` means the fuel ran out with the session still live in
state `s`. -/
def runState : Nat → State → Lexer → List Token × Option (State × Lexer)
  | 0, s, l => ([], some (s, l))
  | n + 1, s, l =>
    match stepState s l with
    | (ts, _, none) => (ts, none)
    | (ts, l1, some s1) =>
      let rest := runState n s1 l1
      (ts ++ rest.1, rest.2)

/-- A whole session: the driver started in `expectAny`, as `NewLexer`'s
goroutine does. -/
def runLexer (fuel : Nat) (l : Lexer) : List Token × Option (State × Lexer) :=
  runState fuel State.expectAny l

/-- The zero value of `Token`: `TokenType(0)` is `Error` (first `iota`
constant) and the zero string is empty. -/
def zeroToken : Token :=
  { type := TokenType.Error, literal := "" }

/-- `Tokenize`, src/lex.go lines 90-98.  The argument is what the channel
receive delivers: `some t` while the driver is live, `none` once the
channel has been closed — a Go receive on a closed channel immediately
yields the zero value `Token{Error, ""}`.  The second component models
the returned error: `some "Error"` / `some "EOF"` for the two
`errors.New` results, `none` for `nil`. -/
def Tokenize (received : Option Token) : Token × Option String :=
  let t := received.getD zeroToken
  if t.type = TokenType.Error then (t, some "Error")
  else if t.type = TokenType.EOF then (t, some "EOF")
  else (t, none)

/-- The result of the caller's `i`-th `Tokenize` call in a session whose
driver sent `events` and then closed the channel: the rendezvous delivers
the tokens one per pull, in order, and every receive after the close
yields the zero value. -/
def tokenizeAt (events : List Token) (i : Nat) : Token × Option String :=
  Tokenize events[i]?

/-- The cursor invariant of the spec: `0 ≤ start ≤ pos ≤ len(input)`. -/
def Lexer.inv (l : Lexer) : Prop :=
  0 ≤ l.start ∧ l.start ≤ l.pos ∧ l.pos ≤ l.input.length

/-- The 18-branch keyword switch misses: the uppercased text matches none
of the fixed vocabulary of src/lex.go lines 239-274. -/
def keywordMiss (up : String) : Prop :=
  up ≠ "SELECT" ∧ up ≠ "DISTINCT" ∧ up ≠ "FROM" ∧ up ≠ "WHERE" ∧
  up ≠ "GROUP" ∧ up ≠ "ORDER" ∧ up ≠ "BY" ∧ up ≠ "HAVING" ∧
  up ≠ "LIMIT" ∧ up ≠ "JOIN" ∧ up ≠ "LEFT" ∧ up ≠ "RIGHT" ∧
  up ≠ "INNER" ∧ up ≠ "OUTER" ∧ up ≠ "ON" ∧ up ≠ "AS" ∧
  up ≠ "UNION" ∧ up ≠ "ALL"

instance (up : String) : Decidable (keywordMiss up) := by
  unfold keywordMiss
  infer_instance

/-- The diagnostics the dispatch operator branches send before emitting
`Op`: the three `if l.peek() != ...` checks of src/lex.go lines 204-221,
keyed by the code point that was consumed. -/
def opDiagnostics (r : Char) (l1 : Lexer) : List Token :=
  if r = '!' then
    (if l1.peek ≠ '=' then [l1.errorf "unsupported op: " l1.cache] else [])
  else if r = '>' then
    (if l1.peek ≠ '=' ∧ l1.peek ≠ ' ' then [l1.errorf "unsupported op: " l1.cache] else [])
  else if r = '<' then
    (if l1.peek ≠ '=' ∧ l1.peek ≠ ' ' ∧ l1.peek ≠ '>' then
      [l1.errorf "unsupported op: " l1.cache] else [])
  else []

/-! ## Helper lemmas -/

/-- If a code point other than `RuneError` does not occur in the text
after the cursor, then `next` neither returns it nor brings it into the
remaining text. -/
theorem next_avoids {l : Lexer} {c : Char} (hc : c ≠ replacementChar)
    (h : c ∉ l.input.drop l.pos) :
    (l.next).1 ≠ c ∧ c ∉ (l.next).2.input.drop ((l.next).2).pos := by
  unfold Lexer.next
  split
  case isTrue hlt =>
    have hget : l.input.getD l.pos replacementChar = l.input[l.pos] := by
      simp [List.getD_eq_getElem?_getD, List.getElem?_eq_getElem hlt]
    have hdrop : l.input.drop l.pos = l.input[l.pos] :: l.input.drop (l.pos + 1) :=
      List.drop_eq_getElem_cons hlt
    rw [hdrop] at h
    simp only [List.mem_cons, not_or] at h
    constructor
    · show l.input.getD l.pos replacementChar ≠ c
      rw [hget]
      exact fun he => h.1 he.symm
    · show c ∉ l.input.drop (l.pos + 1)
      exact h.2
  case isFalse hge =>
    exact ⟨fun he => hc he.symm, h⟩

/-! ## Claim theorems -/

/-- C1: for input `select * from `table` where `a` = xyz` the session
publishes exactly SELECT("select"), Star("*"), FROM("from"),
Literal("`table`"), WHERE("where"), Literal("`a`"), Op("="), and then an
Error token — "xyz" is not in the keyword vocabulary — after which the
driver terminates (the `none` in the run result: the channel is closed
and no further token is produced; the ninth `Tokenize` call already sees
the closed channel and gets only the zero-value token with a non-nil
error). -/
theorem c1_end_to_end_session :
    runLexer 64 (NewLexer "lex" "select * from `table` where `a` = xyz") =
      ([{ type := TokenType.Select, literal := "select" },
        { type := TokenType.Star, literal := "*" },
        { type := TokenType.From, literal := "from" },
        { type := TokenType.Literal, literal := "`table`" },
        { type := TokenType.Where, literal := "where" },
        { type := TokenType.Literal, literal := "`a`" },
        { type := TokenType.Op, literal := "=" },
        { type := TokenType.Error, literal := "ERROR: lex: keyword doesn\x27t exsit: xyz" }],
       none) ∧
    tokenizeAt (runLexer 64 (NewLexer "lex" "select * from `table` where `a` = xyz")).1 7 =
      ({ type := TokenType.Error, literal := "ERROR: lex: keyword doesn\x27t exsit: xyz" },
       some "Error") ∧
    tokenizeAt (runLexer 64 (NewLexer "lex" "select * from `table` where `a` = xyz")).1 8 =
      ({ type := TokenType.Error, literal := "" }, some "Error") := by
  exact ⟨rfl, rfl, rfl⟩

/-- C2: the cursor invariant `0 ≤ start ≤ pos ≤ len(input)` holds of a
fresh session and is preserved by every cursor primitive that touches the
cursor — `next`, `ignore`, `backup` and the cursor update of `emit`
(`peek` returns only a `Char` and has no post-state to check) — and the
token `emit` publishes carries exactly `input[start:pos]` as its
literal. -/
theorem c2_cursor_invariant (l : Lexer) (t : TokenType) (nm s : String) (h : l.inv) :
    (l.next).2.inv ∧ l.ignore.inv ∧ l.backup.inv ∧ ((l.emit t).2).inv ∧
    (l.emit t).1 =
      { type := t, literal := String.mk ((l.input.drop l.start).take (l.pos - l.start)) } ∧
    (NewLexer nm s).inv := by
  obtain ⟨h0, h1, h2⟩ := h
  refine ⟨?_, ?_, ?_, ?_, rfl, ?_⟩
  · unfold Lexer.next
    split
    case isTrue hlt => exact ⟨Nat.zero_le _, Nat.le_succ_of_le h1, hlt⟩
    case isFalse hge => exact ⟨h0, h1, h2⟩
  · exact ⟨Nat.zero_le _, Nat.le_refl _, h2⟩
  · exact ⟨Nat.zero_le _, Nat.le_refl _, by simpa using Nat.le_trans h1 h2⟩
  · exact ⟨Nat.zero_le _, Nat.le_refl _, h2⟩
  · exact ⟨Nat.zero_le _, Nat.le_refl _, Nat.zero_le _⟩

/-- Witness for C2 at a concrete session. -/
theorem c2_cursor_invariant_witness :
    ((NewLexer "lex" "ab").next).2.inv ∧ (NewLexer "lex" "ab").ignore.inv ∧
    (NewLexer "lex" "ab").backup.inv ∧ (((NewLexer "lex" "ab").emit TokenType.Op).2).inv ∧
    ((NewLexer "lex" "ab").emit TokenType.Op).1 =
      { type := TokenType.Op,
        literal := String.mk ((((NewLexer "lex" "ab").input.drop (NewLexer "lex" "ab").start)).take
          ((NewLexer "lex" "ab").pos - (NewLexer "lex" "ab").start)) } ∧
    (NewLexer "w" "q").inv :=
  c2_cursor_invariant (NewLexer "lex" "ab") TokenType.Op "w" "q"
    ⟨Nat.zero_le _, Nat.le_refl _, Nat.zero_le _⟩

/-- C3 as stated is false on the code: for the unknown bare word "xyz"
the published diagnostic spells the context `keyword doesn't exsit`
(src/lex.go line 276; the README example at the end of the file shows the
same spelling), not `keyword doesn't exist` as the claim requires. -/
theorem c3_counterexample_spelling :
    (runLexer 64 (NewLexer "lex" "xyz")).1.map Token.literal =
      ["ERROR: lex: keyword doesn\x27t exsit: xyz"] ∧
    (runLexer 64 (NewLexer "lex" "xyz")).2 = none ∧
    "ERROR: lex: keyword doesn\x27t exsit: xyz" ≠ "ERROR: lex: keyword doesn\x27t exist: xyz" := by
  exact ⟨rfl, rfl, by decide⟩

/-- C3 amended (spelling follows the code): whenever the keyword state's
maximal letter run uppercases to a word outside the 18-word vocabulary,
the session publishes exactly one token — the Error token that `errorf`
builds for the context `keyword doesn't exsit: %s` and the captured text —
and then terminates: whatever fuel remains, no token of any kind follows
(the run result is `none`, i.e. the channel is closed). -/
theorem c3_amended_unknown_word_fatal (n : Nat) (l : Lexer)
    (h : keywordMiss (goToUpper (consumeLetters l).cache)) :
    runState (n + 1) State.expectKeyword l =
      ([(consumeLetters l).errorf "keyword doesn\x27t exsit: %s" (consumeLetters l).cache],
       none) ∧
    ((consumeLetters l).errorf "keyword doesn\x27t exsit: %s" (consumeLetters l).cache).type =
      TokenType.Error := by
  obtain ⟨h1, h2, h3, h4, h5, h6, h7, h8, h9, h10, h11, h12, h13, h14, h15, h16, h17, h18⟩ := h
  constructor
  · simp [runState, stepState, expectKeyword, h1, h2, h3, h4, h5, h6, h7, h8, h9, h10,
      h11, h12, h13, h14, h15, h16, h17, h18]
  · rfl

/-- Witness for C3's amended theorem at the session of the README example's
tail: input "xyz". -/
theorem c3_amended_witness :
    runState 1 State.expectKeyword (Lexer.mk "lex" "xyz".toList 0 0) =
      ([{ type := TokenType.Error, literal := "ERROR: lex: keyword doesn\x27t exsit: xyz" }],
       none) := by
  have h := c3_amended_unknown_word_fatal 0 (Lexer.mk "lex" "xyz".toList 0 0) (by decide)
  exact h.1.trans (by rfl)

/-- C4 is right about `errorf`'s intent but fails on the code's three
unsupported-operator call sites: they pass the offending span as an
argument to a format string that has no verb, so Go's `fmt` renders it as
an unconsumed-argument artifact.  For input "!" the published diagnostic
is `ERROR: lex: unsupported op: %!(EXTRA string=!)`, not the documented
`ERROR: lex: unsupported op: !`.  (The keyword path, whose format does
contain `%s`, matches the claimed shape — see the C3 theorems.) -/
theorem c4_diagnostic_format_bug :
    (runLexer 8 (NewLexer "lex" "!")).1.map Token.literal =
      ["ERROR: lex: unsupported op: %!(EXTRA string=!)", "!", ""] ∧
    (runLexer 8 (NewLexer "lex" "!")).1.map Token.type =
      [TokenType.Error, TokenType.Op, TokenType.EOF] ∧
    "ERROR: lex: unsupported op: %!(EXTRA string=!)" ≠ "ERROR: lex: unsupported op: !" := by
  exact ⟨rfl, rfl, by decide⟩

/-- C5: in dispatch, `!` not followed by `=`, `>` followed by neither `=`
nor space, and `<` followed by neither `=`, space, nor `>` each publish
first the `errorf` diagnostic (an Error token) and then still,
unconditionally, the Op token for the same span (both carry the pending
span `cache`), and scanning continues in dispatch (`some State.expectAny`:
the error is non-fatal). -/
theorem c5_nonfatal_unsupported_ops :
    (∀ (l : Lexer) (rest : List Char),
      l.input.drop l.pos = '!' :: rest →
      Lexer.peek { l with pos := l.pos + 1 } ≠ '=' →
      expectAny l =
        ([Lexer.errorf { l with pos := l.pos + 1 } "unsupported op: "
            (Lexer.cache { l with pos := l.pos + 1 }),
          { type := TokenType.Op, literal := Lexer.cache { l with pos := l.pos + 1 } }],
         { l with pos := l.pos + 1, start := l.pos + 1 }, some State.expectAny)) ∧
    (∀ (l : Lexer) (rest : List Char),
      l.input.drop l.pos = '>' :: rest →
      Lexer.peek { l with pos := l.pos + 1 } ≠ '=' →
      Lexer.peek { l with pos := l.pos + 1 } ≠ ' ' →
      expectAny l =
        ([Lexer.errorf { l with pos := l.pos + 1 } "unsupported op: "
            (Lexer.cache { l with pos := l.pos + 1 }),
          { type := TokenType.Op, literal := Lexer.cache { l with pos := l.pos + 1 } }],
         { l with pos := l.pos + 1, start := l.pos + 1 }, some State.expectAny)) ∧
    (∀ (l : Lexer) (rest : List Char),
      l.input.drop l.pos = '<' :: rest →
      Lexer.peek { l with pos := l.pos + 1 } ≠ '=' →
      Lexer.peek { l with pos := l.pos + 1 } ≠ ' ' →
      Lexer.peek { l with pos := l.pos + 1 } ≠ '>' →
      expectAny l =
        ([Lexer.errorf { l with pos := l.pos + 1 } "unsupported op: "
            (Lexer.cache { l with pos := l.pos + 1 }),
          { type := TokenType.Op, literal := Lexer.cache { l with pos := l.pos + 1 } }],
         { l with pos := l.pos + 1, start := l.pos + 1 }, some State.expectAny)) := by
  refine ⟨?_, ?_, ?_⟩
  · intro l rest hd hp
    unfold expectAny
    rw [hd]
    simp [expectAnyGo, squote, backquote, emit1, Lexer.emit, hp]
  · intro l rest hd hp hsp
    unfold expectAny
    rw [hd]
    simp [expectAnyGo, squote, backquote, emit1, Lexer.emit, hp, hsp]
  · intro l rest hd hp hsp hgt
    unfold expectAny
    rw [hd]
    simp [expectAnyGo, squote, backquote, emit1, Lexer.emit, hp, hsp, hgt]

/-- Witness for C5: the three operator cases at concrete sessions (for
`>` and `<` the follower is `x`; for `!` it is end of input, where `peek`
returns `RuneError`). -/
theorem c5_nonfatal_unsupported_ops_witness :
    expectAny (Lexer.mk "lex" ['!'] 0 0) =
      ([{ type := TokenType.Error, literal := "ERROR: lex: unsupported op: %!(EXTRA string=!)" },
        { type := TokenType.Op, literal := "!" }],
       Lexer.mk "lex" ['!'] 1 1, some State.expectAny) ∧
    expectAny (Lexer.mk "lex" ['>', 'x'] 0 0) =
      ([{ type := TokenType.Error, literal := "ERROR: lex: unsupported op: %!(EXTRA string=>)" },
        { type := TokenType.Op, literal := ">" }],
       Lexer.mk "lex" ['>', 'x'] 1 1, some State.expectAny) ∧
    expectAny (Lexer.mk "lex" ['<', 'x'] 0 0) =
      ([{ type := TokenType.Error, literal := "ERROR: lex: unsupported op: %!(EXTRA string=<)" },
        { type := TokenType.Op, literal := "<" }],
       Lexer.mk "lex" ['<', 'x'] 1 1, some State.expectAny) := by
  refine ⟨?_, ?_, ?_⟩
  · exact (c5_nonfatal_unsupported_ops.1 (Lexer.mk "lex" ['!'] 0 0) [] rfl
      (by decide)).trans (by rfl)
  · exact (c5_nonfatal_unsupported_ops.2.1 (Lexer.mk "lex" ['>', 'x'] 0 0) ['x'] rfl
      (by decide) (by decide)).trans (by rfl)
  · exact (c5_nonfatal_unsupported_ops.2.2 (Lexer.mk "lex" ['<', 'x'] 0 0) ['x'] rfl
      (by decide) (by decide) (by decide)).trans (by rfl)

/-- C6: a code point reaching dispatch that matches none of the
recognized classes (not quote, backtick, space, newline, `*`, `,`, `=`,
`+`, `-`, `/`, `!`, `>`, `<`, digit, or ASCII letter — e.g. `;` or `(`)
hits the switch's default: the state returns nil and the driver closes
the channel, so however much fuel remains the session yields no token and
no diagnostic at all. -/
theorem c6_silent_stop (n : Nat) (l : Lexer) (r : Char) (rest : List Char)
    (hd : l.input.drop l.pos = r :: rest)
    (h1 : r ≠ squote) (h2 : r ≠ backquote) (h3 : r ≠ ' ') (h4 : r ≠ '\n')
    (h5 : r ≠ '*') (h6 : r ≠ ',') (h7 : r ≠ '=') (h8 : r ≠ '+') (h9 : r ≠ '-')
    (h10 : r ≠ '/') (h11 : r ≠ '!') (h12 : r ≠ '>') (h13 : r ≠ '<')
    (h14 : isGoDigit r = false) (h15 : isGoLetter r = false) :
    runState (n + 1) State.expectAny l = ([], none) := by
  have hstep : expectAny l = ([], { l with pos := l.pos + 1 }, none) := by
    unfold expectAny
    rw [hd]
    simp [expectAnyGo, h1, h2, h3, h4, h5, h6, h7, h8, h9, h10, h11, h12, h13, h14, h15]
  simp [runState, stepState, hstep]

/-- Witness for C6 at input ";". -/
theorem c6_silent_stop_witness :
    runState 8 State.expectAny (NewLexer "lex" ";") = ([], none) :=
  c6_silent_stop 7 (NewLexer "lex" ";") ';' [] rfl (by decide) (by decide) (by decide)
    (by decide) (by decide) (by decide) (by decide) (by decide) (by decide) (by decide)
    (by decide) (by decide) (by decide) (by decide) (by decide)

/-- C7: if the closing delimiter never occurs in the remaining text, the
string-literal state (resp. the backtick-literal state) runs forever: for
every fuel bound the driver is still live (the run result is not `none`,
so no terminal state is ever reached) and not a single token — in
particular neither EOF nor Error — has been published.  At end of input
`next` keeps returning `RuneError` without moving the cursor, so the
state re-enters itself indefinitely. -/
theorem c7_unterminated_literals :
    (∀ (n : Nat) (l : Lexer), squote ∉ l.input.drop l.pos →
      (runState n State.expectString l).1 = [] ∧
      (runState n State.expectString l).2 ≠ none) ∧
    (∀ (n : Nat) (l : Lexer), backquote ∉ l.input.drop l.pos →
      (runState n State.expectLiteral l).1 = [] ∧
      (runState n State.expectLiteral l).2 ≠ none) := by
  constructor
  · intro n
    induction n with
    | zero =>
      intro l h
      exact ⟨rfl, by simp [runState]⟩
    | succ n ih =>
      intro l h
      have ha := next_avoids (show squote ≠ replacementChar by decide) h
      have hs : expectString l = ([], (l.next).2, some State.expectString) := by
        unfold expectString
        rw [if_neg ha.1]
      have ihs := ih (l.next).2 ha.2
      simp only [runState, stepState, hs, List.nil_append]
      exact ihs
  · intro n
    induction n with
    | zero =>
      intro l h
      exact ⟨rfl, by simp [runState]⟩
    | succ n ih =>
      intro l h
      have ha := next_avoids (show backquote ≠ replacementChar by decide) h
      have hs : expectLiteral l = ([], (l.next).2, some State.expectLiteral) := by
        unfold expectLiteral
        rw [if_neg ha.1]
      have ihs := ih (l.next).2 ha.2
      simp only [runState, stepState, hs, List.nil_append]
      exact ihs

/-- Witness for C7: the sessions for "'abc" and "`abc" right after
dispatch consumed the opening delimiter. -/
theorem c7_unterminated_literals_witness :
    ((runState 9 State.expectString (Lexer.mk "lex" "\x27abc".toList 0 1)).1 = [] ∧
      (runState 9 State.expectString (Lexer.mk "lex" "\x27abc".toList 0 1)).2 ≠ none) ∧
    ((runState 9 State.expectLiteral (Lexer.mk "lex" "`abc".toList 0 1)).1 = [] ∧
      (runState 9 State.expectLiteral (Lexer.mk "lex" "`abc".toList 0 1)).2 ≠ none) :=
  ⟨c7_unterminated_literals.1 9 (Lexer.mk "lex" "\x27abc".toList 0 1) (by decide),
   c7_unterminated_literals.2 9 (Lexer.mk "lex" "`abc".toList 0 1) (by decide)⟩

/-- C8: quoted forms round-trip with their delimiters: "'abc'" yields a
String token whose literal is "'abc'" (both quotes included) and
"`table`" yields a Literal-kind token whose literal is
"`table`" (both backticks included), each followed by the EOF
token that only dispatch emits — the state returned to dispatch after the
emission.  The Literal token goes through the standard emission
primitive; see `expectLiteral` for the resolution of source line 293. -/
theorem c8_quoted_roundtrip :
    runLexer 64 (NewLexer "lex" "\x27abc\x27") =
      ([{ type := TokenType.String, literal := "\x27abc\x27" },
        { type := TokenType.EOF, literal := "" }], none) ∧
    runLexer 64 (NewLexer "l2" "`table`") =
      ([{ type := TokenType.Literal, literal := "`table`" },
        { type := TokenType.EOF, literal := "" }], none) := by
  exact ⟨rfl, rfl⟩

/-- C9: once the driver has terminated and the channel is closed, every
further `Tokenize` call receives the zero-value token — Error kind, empty
literal — paired with a non-nil error ("Error", since the zero `TokenType`
is `Error`).  In particular after the silent stop on ";" (a session that
publishes nothing at all) the first pull already observes that zero-value
Error token, not an EOF token. -/
theorem c9_closed_channel_pull (events : List Token) (i : Nat) (h : events.length ≤ i) :
    tokenizeAt events i = ({ type := TokenType.Error, literal := "" }, some "Error") ∧
    runLexer 4 (NewLexer "lex" ";") = ([], none) := by
  constructor
  · unfold tokenizeAt Tokenize
    rw [List.getElem?_eq_none h]
    rfl
  · rfl

/-- Witness for C9: the first pull after a silent stop. -/
theorem c9_closed_channel_pull_witness :
    tokenizeAt [] 0 = ({ type := TokenType.Error, literal := "" }, some "Error") ∧
    runLexer 4 (NewLexer "lex" ";") = ([], none) :=
  c9_closed_channel_pull [] 0 (Nat.zero_le 0)

/-- C10 as stated is false on the code: for input "<>" the two Op tokens
are not consecutive — dispatch reads `>` whose follower (end of input,
where `peek` returns `RuneError`) is neither `=` nor space, so an Error
diagnostic is published between Op("<") and Op(">"). -/
theorem c10_counterexample_interleaved_error :
    (runLexer 8 (NewLexer "lex" "<>")).1.map Token.type =
      [TokenType.Op, TokenType.Error, TokenType.Op, TokenType.EOF] ∧
    (runLexer 8 (NewLexer "lex" "<>")).1.map Token.literal =
      ["<", "ERROR: lex: unsupported op: %!(EXTRA string=>)", ">", ""] := by
  exact ⟨rfl, rfl⟩

/-- C10 amended: the `!`, `>`, `<` branches only peek at the following
code point and never consume it, so whenever dispatch reads one of them
with an empty pending span it emits an Op token whose literal is exactly
that one character, advancing the cursor by exactly one, preceded only by
the branch's possible diagnostic (`opDiagnostics`); hence "!=" yields two
consecutive Op tokens "!" and "=", while "<>" yields Op("<"), then a
diagnostic Error token, then Op(">") — in no case a single two-character
operator token. -/
theorem c10_amended_single_char_ops :
    (∀ (l : Lexer) (r : Char) (rest : List Char),
      l.input.drop l.pos = r :: rest → l.start = l.pos →
      r = '!' ∨ r = '>' ∨ r = '<' →
      expectAny l =
        (opDiagnostics r { l with pos := l.pos + 1 } ++
          [{ type := TokenType.Op, literal := String.mk [r] }],
         { l with pos := l.pos + 1, start := l.pos + 1 }, some State.expectAny)) ∧
    runLexer 8 (NewLexer "lex" "!=") =
      ([{ type := TokenType.Op, literal := "!" },
        { type := TokenType.Op, literal := "=" },
        { type := TokenType.EOF, literal := "" }], none) ∧
    runLexer 8 (NewLexer "lex" "<>") =
      ([{ type := TokenType.Op, literal := "<" },
        { type := TokenType.Error, literal := "ERROR: lex: unsupported op: %!(EXTRA string=>)" },
        { type := TokenType.Op, literal := ">" },
        { type := TokenType.EOF, literal := "" }], none) := by
  refine ⟨?_, rfl, rfl⟩
  intro l r rest hd hs hop
  have hcache : Lexer.cache { l with pos := l.pos + 1 } = String.mk [r] := by
    unfold Lexer.cache
    simp [hs, hd]
  rcases hop with h | h | h <;> subst h <;>
    (unfold expectAny; rw [hd];
     simp [expectAnyGo, squote, backquote, opDiagnostics, emit1, Lexer.emit, hcache])

/-- Witness for C10's amended theorem: dispatch at "!=" emits the
single-character Op("!") with no diagnostic. -/
theorem c10_amended_single_char_ops_witness :
    expectAny (Lexer.mk "lex" ['!', '='] 0 0) =
      ([{ type := TokenType.Op, literal := "!" }],
       Lexer.mk "lex" ['!', '='] 1 1, some State.expectAny) := by
  have h := c10_amended_single_char_ops.1 (Lexer.mk "lex" ['!', '='] 0 0) '!' ['='] rfl rfl
    (Or.inl rfl)
  exact h.trans (by rfl)

end Gps
